import Mathlib

set_option maxRecDepth 8000

/-!
Verification development for the container code generator
(`src/generator.js`).  The JavaScript source is shallowly embedded:

* paths are `String`s, manipulated through explicit character lists;
* the workspace filesystem is an explicit record of files (path to
  content) and directories, threaded through every operation;
* `JSValue` models the dynamically typed tool-call arguments;
* the conversation driver is a step function over an explicit state,
  folded over the list of oracle replies of a run (the oracle itself,
  the HTTP client and token accounting inputs are external data);
* text blocks of a reply carry the JSON value that the fenced-block
  regular expression plus JSON.parse of the source would produce on
  them (`none` when no parseable fenced block is present) — the regex
  engine and JSON.parse are JavaScript builtins, their output is taken
  as input here, and the manifest checks of the source are translated
  literally on that output.
-/

/-- A JavaScript value as it can appear in a tool-call argument record. -/
inductive JSValue where
  | undefined
  | null
  | str (s : String)
  | num (n : Int)
  | boolean (b : Bool)
deriving DecidableEq

/-- typeof, restricted to the modelled values. -/
def typeofJS : JSValue → String
  | .undefined => "undefined"
  | .null => "object"
  | .str _ => "string"
  | .num _ => "number"
  | .boolean _ => "boolean"

/-- First-match association lookup (JS object field / Map access). -/
def lookupA {α : Type} : List (String × α) → String → Option α
  | [], _ => none
  | (k, v) :: rest, key => if k = key then some v else lookupA rest key

/-- Overwrite-or-append association update. -/
def setAssoc : List (String × String) → String → String → List (String × String)
  | [], k, v => [(k, v)]
  | (k', v') :: rest, k, v =>
    if k' = k then (k, v) :: rest else (k', v') :: setAssoc rest k v

/-! ## Path handling (validatePath, lines 336-354) -/

/-- The fixed workspace root of the container. -/
def WORKSPACE : String := "/workspace"

/-- inputPath.replace applied to the leading-slash pattern: drop all
leading forward slashes. -/
def stripLeadingSlashes (s : String) : String :=
  ⟨s.data.dropWhile (fun c => c = '/')⟩

/-- Contiguous-sublist test on character lists (String.prototype.includes). -/
def isInfixL (needle : List Char) : List Char → Bool
  | [] => needle.isEmpty
  | c :: rest => needle.isPrefixOf (c :: rest) || isInfixL needle rest

/-- s.includes pat, on strings. -/
def containsSub (s pat : String) : Bool := isInfixL pat.data s.data

/-- Split a character list at forward slashes (posix path segmenting). -/
def splitSlashAux : List Char → List Char → List (List Char)
  | [], acc => [acc.reverse]
  | c :: rest, acc =>
    if c = '/' then acc.reverse :: splitSlashAux rest []
    else splitSlashAux rest (c :: acc)

def splitSlash (l : List Char) : List (List Char) := splitSlashAux l []

/-- The nonempty segments of a path string. -/
def segsOf (s : String) : List (List Char) :=
  (splitSlash s.data).filter (fun seg => !seg.isEmpty)

/-- Posix path resolution over segments: empty and dot segments vanish,
a dotdot segment removes the previous segment (no effect at the root,
as the base is absolute). -/
def resolveSegs : List (List Char) → List (List Char) → List (List Char)
  | acc, [] => acc
  | acc, seg :: rest =>
    if seg.isEmpty || seg = ['.'] then resolveSegs acc rest
    else if seg = ['.', '.'] then resolveSegs acc.dropLast rest
    else resolveSegs (acc ++ [seg]) rest

def joinSegs : List (List Char) → List Char
  | [] => []
  | [s] => s
  | s :: rest => s ++ '/' :: joinSegs rest

/-- Join segments into an absolute path string. -/
def joinAbs (l : List (List Char)) : String := ⟨'/' :: joinSegs l⟩

/-- path.resolve of the workspace root and a cleaned relative path. -/
def resolveInWorkspace (cleanPath : String) : String :=
  joinAbs (resolveSegs [] (segsOf WORKSPACE ++ splitSlash cleanPath.data))

/-- The two rejection reasons of validatePath, plus the TypeError raised
when the path argument of a tool call is absent. -/
inductive PathErr where
  | traversal (p : String)
  | outside (p : String)
  | missing
deriving DecidableEq

/-- s.startsWith pre. -/
def startsWithStr (s pre : String) : Bool := pre.data.isPrefixOf s.data

/-- validatePath of the source: strip leading slashes, refuse a dotdot
segment directly followed by a separator, resolve against the workspace
root, and require the result to keep the root as a prefix. -/
def validatePath (inputPath : String) : Except PathErr String :=
  let cleanPath := stripLeadingSlashes inputPath
  if containsSub cleanPath "../" || containsSub cleanPath "..\\" then
    .error (.traversal inputPath)
  else
    let absolutePath := resolveInWorkspace cleanPath
    if startsWithStr absolutePath WORKSPACE then .ok absolutePath
    else .error (.outside inputPath)

/-- validatePath lifted to a possibly-absent path argument; an absent
argument makes the handler throw before validating (caught by its
try/catch). -/
def validatePathOpt : Option String → Except PathErr String
  | some p => validatePath p
  | none => .error .missing

/-! ## Workspace filesystem model -/

/-- The sandboxed workspace: files (absolute path to content) and the
set of existing directories. -/
structure FS where
  files : List (String × String)
  dirs : List String
deriving DecidableEq

/-- The fresh container workspace: empty, with the root directory. -/
def initFS : FS := { files := [], dirs := [WORKSPACE] }

/-- path.dirname on an absolute path. -/
def dirnameOf (p : String) : String := joinAbs ((segsOf p).dropLast)

/-- The final segment of an absolute path. -/
def basenameOf (p : String) : String :=
  match (segsOf p).getLast? with
  | some s => ⟨s⟩
  | none => ""

/-- fs.mkdirSync with the recursive flag: every ancestor of the target
becomes a directory. -/
def mkdirRec (dirs : List String) (p : String) : List String :=
  let newDirs := ((segsOf p).inits.filter (fun l => !l.isEmpty)).map joinAbs
  newDirs.foldl (fun ds d => if ds.contains d then ds else ds ++ [d]) dirs

def existsFile (fs : FS) (p : String) : Bool := (lookupA fs.files p).isSome

def existsDir (fs : FS) (p : String) : Bool := fs.dirs.contains p

/-- fs.existsSync. -/
def existsFS (fs : FS) (p : String) : Bool := existsFile fs p || existsDir fs p

/-- path.relative of the workspace root and a descendant absolute path. -/
def relOf (abs : String) : String := ⟨abs.data.drop (WORKSPACE.data.length + 1)⟩

/-- The uniform result envelope returned by every tool handler. -/
structure ToolResult where
  success : Bool
  error_code : Option String := none
  error : Option String := none
  hint : Option String := none
  path : Option String := none
  bytes : Option Nat := none
  content : Option String := none
  items : Option (List (String × String)) := none
deriving DecidableEq

/-- The error message of the exception thrown by validatePath, as it is
returned through the catch-all of each handler. -/
def pathErrMsg : PathErr → String
  | .traversal p => "Path traversal not allowed: " ++ p
  | .outside p => "Path outside workspace: " ++ p
  | .missing => "Cannot read properties of undefined"

/-! ## Tool handlers (lines 359-549) -/

/-- handleWriteFile: validates the content argument, then the path, then
creates parent directories and overwrites the target.  No size check of
any kind is performed on the content. -/
def handleWriteFile (fs : FS) (pathArg : Option String) (contentArg : JSValue) :
    ToolResult × FS :=
  match contentArg with
  | .undefined =>
    ({ success := false, error_code := some "INVALID_WRITE_CONTENT",
       error := some "Content is missing or undefined. This usually happens when max_tokens truncates the response.",
       hint := some "Use write_file for the first chunk, then append_file for subsequent chunks. Keep chunks under 8KB." }, fs)
  | .null =>
    ({ success := false, error_code := some "INVALID_WRITE_CONTENT",
       error := some "Content is missing or undefined. This usually happens when max_tokens truncates the response.",
       hint := some "Use write_file for the first chunk, then append_file for subsequent chunks. Keep chunks under 8KB." }, fs)
  | .str s =>
    (match validatePathOpt pathArg with
     | .error e => ({ success := false, error := some (pathErrMsg e) }, fs)
     | .ok safePath =>
       if existsDir fs safePath then
         ({ success := false,
            error := some ("EISDIR: illegal operation on a directory, open " ++ safePath) }, fs)
       else
         ({ success := true, path := some (relOf safePath), bytes := some s.length },
          { files := setAssoc fs.files safePath s,
            dirs := mkdirRec fs.dirs (dirnameOf safePath) }))
  | other =>
    ({ success := false, error_code := some "INVALID_WRITE_CONTENT",
       error := some ("Content must be a string, got " ++ typeofJS other),
       hint := some "Ensure content is a valid string." }, fs)

/-- handleAppendFile: same content and path validation as write, then
appends (creating the file if absent).  No chunk-size and no total-size
check is performed. -/
def handleAppendFile (fs : FS) (pathArg : Option String) (contentArg : JSValue) :
    ToolResult × FS :=
  match contentArg with
  | .undefined =>
    ({ success := false, error_code := some "INVALID_WRITE_CONTENT",
       error := some "Content is missing or undefined. This usually happens when max_tokens truncates the response.",
       hint := some "Ensure content is provided. Keep chunks under 8KB." }, fs)
  | .null =>
    ({ success := false, error_code := some "INVALID_WRITE_CONTENT",
       error := some "Content is missing or undefined. This usually happens when max_tokens truncates the response.",
       hint := some "Ensure content is provided. Keep chunks under 8KB." }, fs)
  | .str s =>
    (match validatePathOpt pathArg with
     | .error e => ({ success := false, error := some (pathErrMsg e) }, fs)
     | .ok safePath =>
       if existsDir fs safePath then
         ({ success := false,
            error := some ("EISDIR: illegal operation on a directory, open " ++ safePath) }, fs)
       else
         let oldContent := (lookupA fs.files safePath).getD ""
         ({ success := true, path := some (relOf safePath), bytes := some s.length },
          { files := setAssoc fs.files safePath (oldContent ++ s),
            dirs := mkdirRec fs.dirs (dirnameOf safePath) }))
  | other =>
    ({ success := false, error_code := some "INVALID_WRITE_CONTENT",
       error := some ("Content must be a string, got " ++ typeofJS other),
       hint := some "Ensure content is a valid string." }, fs)

/-- handleReadFile. -/
def handleReadFile (fs : FS) (pathArg : Option String) : ToolResult × FS :=
  match validatePathOpt pathArg with
  | .error e => ({ success := false, error := some (pathErrMsg e) }, fs)
  | .ok safePath =>
    if !existsFS fs safePath then
      ({ success := false, error := some ("File not found: " ++ pathArg.getD "") }, fs)
    else
      match lookupA fs.files safePath with
      | some c => ({ success := true, path := some (relOf safePath), content := some c }, fs)
      | none =>
        ({ success := false,
           error := some ("EISDIR: illegal operation on a directory, read " ++ safePath) }, fs)

/-- The directory listing: entries whose parent is the listed directory. -/
def entriesOf (fs : FS) (d : String) : List (String × String) :=
  (fs.files.filterMap fun pr =>
    if dirnameOf pr.1 = d then some (basenameOf pr.1, "file") else none)
  ++ (fs.dirs.filterMap fun p =>
    if p ≠ d ∧ dirnameOf p = d then some (basenameOf p, "directory") else none)

/-- handleListDirectory. -/
def handleListDirectory (fs : FS) (pathArg : Option String) : ToolResult × FS :=
  match validatePathOpt pathArg with
  | .error e => ({ success := false, error := some (pathErrMsg e) }, fs)
  | .ok safePath =>
    if !existsFS fs safePath then
      ({ success := false, error := some ("Directory not found: " ++ pathArg.getD "") }, fs)
    else if existsFile fs safePath then
      ({ success := false,
         error := some ("ENOTDIR: not a directory, scandir " ++ safePath) }, fs)
    else
      let rel := relOf safePath
      ({ success := true, path := some (if rel = "" then "." else rel),
         items := some (entriesOf fs safePath) }, fs)

/-- handleCreateDirectory. -/
def handleCreateDirectory (fs : FS) (pathArg : Option String) : ToolResult × FS :=
  match validatePathOpt pathArg with
  | .error e => ({ success := false, error := some (pathErrMsg e) }, fs)
  | .ok safePath =>
    if existsFile fs safePath then
      ({ success := false,
         error := some ("EEXIST: file already exists, mkdir " ++ safePath) }, fs)
    else
      ({ success := true, path := some (relOf safePath) },
       { fs with dirs := mkdirRec fs.dirs safePath })

/-- The dynamically typed input record of a tool call. -/
structure ToolInput where
  path : Option String
  content : JSValue := .undefined
deriving DecidableEq

/-- executeTool: string-keyed dispatch over the five operations. -/
def executeTool (toolName : String) (input : ToolInput) (fs : FS) : ToolResult × FS :=
  if toolName = "write_file" then handleWriteFile fs input.path input.content
  else if toolName = "append_file" then handleAppendFile fs input.path input.content
  else if toolName = "read_file" then handleReadFile fs input.path
  else if toolName = "list_directory" then handleListDirectory fs input.path
  else if toolName = "create_directory" then handleCreateDirectory fs input.path
  else ({ success := false, error := some ("Unknown tool: " ++ toolName) }, fs)

/-! ## Circuit breaker (lines 69-71, 696-738) -/

/-- The per-run failure counters, keyed by the tracking-key string. -/
abbrev Tracker := List (String × Nat)

/-- Counter read, defaulting to zero for an absent key. -/
def getT : Tracker → String → Nat
  | [], _ => 0
  | (k', n) :: rest, k => if k' = k then n else getT rest k

def setT : Tracker → String → Nat → Tracker
  | [], k, n => [(k, n)]
  | (k', n') :: rest, k, n =>
    if k' = k then (k, n) :: rest else (k', n') :: setT rest k n

def deleteT : Tracker → String → Tracker
  | [], _ => []
  | (k', n') :: rest, k =>
    if k' = k then deleteT rest k else (k', n') :: deleteT rest k

/-- One model-requested operation. -/
structure ToolCall where
  id : String
  name : String
  input : ToolInput
deriving DecidableEq

/-- JavaScript truthiness of the optional path argument (an empty string
is falsy). -/
def pathTruthy : Option String → Bool
  | some p => p ≠ ""
  | none => false

/-- The tracking key of a call: tool name joined with the path when the
path is truthy, with the call id otherwise. -/
def trackKeyC (c : ToolCall) : String :=
  if pathTruthy c.input.path then c.name ++ ":" ++ c.input.path.getD ""
  else c.name ++ ":" ++ c.id

/-- The diagnostic record built when the breaker trips. -/
structure CBInfo where
  tool : String
  path : Option String
  tool_use_id : String
  last_error : Option String
  hint : String
  failures : Nat
deriving DecidableEq

def DEFAULT_HINT : String :=
  "Try breaking the file into smaller chunks with write_file (first) + append_file (subsequent)."

def mkCBInfo (c : ToolCall) (r : ToolResult) (failures : Nat) : CBInfo :=
  { tool := c.name,
    path := if pathTruthy c.input.path then c.input.path else none,
    tool_use_id := c.id,
    last_error := r.error,
    hint := match r.hint with
      | some h => if h = "" then DEFAULT_HINT else h
      | none => DEFAULT_HINT,
    failures := failures }

def MAX_REPEATED_FAILURES : Nat := 3

/-- The per-turn tool loop of generate: execute each call in order; a
failure increments the counter of its key and trips the breaker at the
threshold (the tripping result is not pushed and the remaining calls are
not dispatched); a success with a truthy path deletes the counter of its
key. -/
def processCalls (tracker : Tracker) (fs : FS) :
    List ToolCall → List ToolResult × Tracker × FS × Option CBInfo
  | [] => ([], tracker, fs, none)
  | c :: rest =>
    let res := executeTool c.name c.input fs
    let key := trackKeyC c
    if res.1.success = false then
      let failures := getT tracker key + 1
      let tracker' := setT tracker key failures
      if MAX_REPEATED_FAILURES ≤ failures then
        ([], tracker', res.2, some (mkCBInfo c res.1 failures))
      else
        let out := processCalls tracker' res.2 rest
        (res.1 :: out.1, out.2)
    else
      let tracker' := if pathTruthy c.input.path then deleteT tracker key else tracker
      let out := processCalls tracker' res.2 rest
      (res.1 :: out.1, out.2)

/-! ## Manifest extraction (extractManifest, lines 125-140) -/

/-- A parsed JSON value (the output of JSON.parse on a regex-matched
fenced block). -/
inductive Json where
  | null
  | boolean (b : Bool)
  | num (n : Int)
  | str (s : String)
  | arr (elems : List Json)
  | obj (fields : List (String × Json))

def jsonField : List (String × Json) → String → Option Json
  | [], _ => none
  | (k', v) :: rest, k => if k' = k then some v else jsonField rest k

/-- The acceptance test of extractManifest on a parsed value: the files
field exists and is an array (an array is always truthy, also when
empty).  Nothing else about the manifest is inspected. -/
def isManifestJson : Json → Bool
  | .obj fields =>
    match jsonField fields "files" with
    | some (.arr _) => true
    | _ => false
  | _ => false

/-- A content block of an oracle reply.  A text block carries the JSON
value that the fenced-block regex plus JSON.parse of the source would
yield on its text, or none. -/
inductive Block where
  | text (jsonBlock : Option Json)
  | toolUse (call : ToolCall)

/-- extractManifest: the first text block whose parsed fenced JSON has a
files array. -/
def extractManifest : List Block → Option Json
  | [] => none
  | .text (some j) :: rest => if isManifestJson j then some j else extractManifest rest
  | .text none :: rest => extractManifest rest
  | .toolUse _ :: rest => extractManifest rest

def toolUsesOf (content : List Block) : List ToolCall :=
  content.filterMap fun b =>
    match b with
    | .toolUse c => some c
    | .text _ => none

/-- Spec-side helper: the estimated_bytes field of one manifest entry
(zero when absent or not a number), used only to state budget claims. -/
def entryEstimatedBytes : Json → Int
  | .obj fields =>
    (match jsonField fields "estimated_bytes" with
     | some (.num n) => n
     | _ => 0)
  | _ => 0

/-- Spec-side helper: the total of the estimated byte counts of a
manifest, used only to state budget claims. -/
def sumEstimatedBytes (j : Json) : Int :=
  match j with
  | .obj fields =>
    (match jsonField fields "files" with
     | some (.arr xs) => (xs.map entryEstimatedBytes).sum
     | _ => 0)
  | _ => 0

/-! ## Conversation driver (generate, lines 577-809) -/

/-- One oracle reply: content blocks, the stop reason string, and the
token usage reported for the exchange. -/
structure Reply where
  content : List Block
  stop_reason : String
  input_tokens : Nat := 0
  output_tokens : Nat := 0

/-- The mutable state of the driver loop.  ackCount counts the injected
manifest-acknowledgment turns and nudgeCount the injected truncation
nudges (observable effects of messages.push). -/
structure DState where
  fs : FS
  tracker : Tracker
  turnCount : Nat
  ackCount : Nat
  nudgeCount : Nat
  totalInput : Nat
  totalOutput : Nat
deriving DecidableEq

def initDState : DState :=
  { fs := initFS, tracker := [], turnCount := 0, ackCount := 0,
    nudgeCount := 0, totalInput := 0, totalOutput := 0 }

/-- The outcome of one turn: continue the loop, or leave it (with the
breaker diagnostic when the breaker tripped). -/
inductive StepRes where
  | cont (s : DState)
  | halt (s : DState) (cb : Option CBInfo)
deriving DecidableEq

/-- Token-usage accumulation at the top of a turn. -/
def tokenBump (s : DState) (r : Reply) : DState :=
  { s with totalInput := s.totalInput + r.input_tokens,
           totalOutput := s.totalOutput + r.output_tokens }

/-- The recovery nudge injected when the reply was cut by max_tokens. -/
def nudgeBump (s : DState) (r : Reply) : DState :=
  if r.stop_reason = "max_tokens" then { s with nudgeCount := s.nudgeCount + 1 } else s

/-- Dispatch the requested calls through the breaker loop and either
continue or leave with the breaker diagnostic. -/
def dispatchPhase (s : DState) (calls : List ToolCall) : StepRes :=
  let out := processCalls s.tracker s.fs calls
  let s' := { s with tracker := out.2.1, fs := out.2.2.1 }
  match out.2.2.2 with
  | some info => .halt s' (some info)
  | none => .cont s'

/-- One turn of generate after the oracle reply arrived: the manifest
check (reply has a parseable file plan and no tool calls) injects the
acknowledgment and continues; otherwise end_turn leaves the loop; a
max_tokens reply gets the nudge; a reply without tool calls leaves the
loop; otherwise the calls are dispatched. -/
def stepTurn (s0 : DState) (r : Reply) : StepRes :=
  let s := tokenBump s0 r
  let toolUses := toolUsesOf r.content
  if (extractManifest r.content).isSome && toolUses.isEmpty then
    .cont { s with ackCount := s.ackCount + 1 }
  else if r.stop_reason = "end_turn" then .halt s none
  else
    let s := nudgeBump s r
    if toolUses.isEmpty then .halt s none
    else dispatchPhase s toolUses

def MAX_TURNS : Nat := 50

/-- The main loop of generate over the succession of oracle replies of
a run, bounded by the turn budget. -/
def runLoop : DState → List Reply → DState × Option CBInfo
  | s, [] => (s, none)
  | s, r :: rest =>
    if MAX_TURNS ≤ s.turnCount then (s, none)
    else
      match stepTurn { s with turnCount := s.turnCount + 1 } r with
      | .cont s' => runLoop s' rest
      | .halt s' cb => (s', cb)

/-! ## Contracts and project types (lines 11-34, 76-120) -/

/-- s.toLowerCase. -/
def lowerStr (s : String) : String := ⟨s.data.map Char.toLower⟩

/-- The contract document mapping (CONTRACT_MAP). -/
def CONTRACT_MAP : List (String × String) :=
  [("nextjs", "next-fullstack/BASE_CONTRACT.md"),
   ("next", "next-fullstack/BASE_CONTRACT.md"),
   ("node", "node-api/BASE_CONTRACT.md"),
   ("api", "node-api/BASE_CONTRACT.md"),
   ("static", "static-site/BASE_CONTRACT.md"),
   ("html", "static-site/BASE_CONTRACT.md"),
   ("vite", "vite-react-spa/BASE_CONTRACT.md"),
   ("react-spa", "vite-react-spa/BASE_CONTRACT.md"),
   ("react", "vite-react-spa/BASE_CONTRACT.md")]

/-- getContract up to the lookup of the contract document path: a falsy
project type or an unknown key yields none (a console warning, no
failure).  Reading the document from the templates directory is external
configuration input. -/
def getContractPath (projectType : Option String) : Option String :=
  match projectType with
  | none => none
  | some t => if t = "" then none else lookupA CONTRACT_MAP (lowerStr t)

def mentionsFramework (lower : String) : Bool :=
  containsSub lower "next.js" || containsSub lower "nextjs"

def mentionsBackend (lower : String) : Bool :=
  containsSub lower "express" || containsSub lower "api server" || containsSub lower "backend"

def mentionsUI (lower : String) : Bool :=
  containsSub lower "react" || containsSub lower "vite" || containsSub lower "spa"

def mentionsStatic (lower : String) : Bool :=
  containsSub lower "static" || containsSub lower "html" || containsSub lower "landing page"

/-- inferProjectType: ordered keyword heuristics over the lowercased
request text, ending in the static fallback. -/
def inferProjectType (prompt : String) : String :=
  let lower := lowerStr prompt
  if mentionsFramework lower then "nextjs"
  else if mentionsBackend lower then "node"
  else if mentionsUI lower then "vite"
  else if mentionsStatic lower then "static"
  else "static"

/-! ## Workspace validator (validateWorkspace, lines 145-230) -/

/-- A required-files entry: a single mandatory path or an alternative
set of which one must exist. -/
inductive Req where
  | single (p : String)
  | oneOf (ps : List String)

def REQUIRED_FILES (t : String) : List Req :=
  if t = "static" then [.single "index.html"]
  else if t = "node" then [.single "package.json", .oneOf ["server.js", "index.js"]]
  else if t = "nextjs" then
    [.single "package.json", .single "next.config.js", .single "tsconfig.json",
     .single "app/layout.tsx", .single "app/page.tsx", .single "app/globals.css"]
  else if t = "vite" then
    [.single "package.json", .single "vite.config.ts", .single "index.html",
     .single "src/main.tsx", .single "src/App.tsx"]
  else []

def FORBIDDEN_FILES (t : String) : List String :=
  if t = "static" then ["package.json"] else []

/-- The type normalization at the top of validateWorkspace: a falsy type
lowers to the static key, known aliases collapse, and every other
(unknown) key falls through to static. -/
def normalizeType (projectType : Option String) : String :=
  let typeKey :=
    match projectType with
    | some t => if t = "" then "static" else lowerStr t
    | none => "static"
  if typeKey = "nextjs" ∨ typeKey = "next" then "nextjs"
  else if typeKey = "node" ∨ typeKey = "api" then "node"
  else if typeKey = "vite" ∨ typeKey = "react-spa" ∨ typeKey = "react" then "vite"
  else "static"

def joinComma : List String → String
  | [] => ""
  | [s] => s
  | s :: rest => s ++ ", " ++ joinComma rest

/-- Math.round of size/1024 for an integer byte count. -/
def roundKB (n : Nat) : Nat := (n + 512) / 1024

/-- The recursive size walk: an error above the 32 KiB cap, a warning
above the 16 KiB threshold. -/
def sizeMsgs (files : List (String × String)) : List String × List String :=
  files.foldr
    (fun pr acc =>
      let size := pr.2.length
      if 32 * 1024 < size then
        (("File too large (>32KB): " ++ relOf pr.1 ++ " (" ++ Nat.repr (roundKB size) ++ "KB)") :: acc.1,
         acc.2)
      else if 16 * 1024 < size then
        (acc.1,
         ("Large file (>16KB): " ++ relOf pr.1 ++ " (" ++ Nat.repr (roundKB size) ++ "KB)") :: acc.2)
      else acc)
    ([], [])

/-- The quote characters of the health-route patterns: apostrophe,
double quote, backtick. -/
def quoteChars : List Char := [Char.ofNat 39, Char.ofNat 34, Char.ofNat 96]

/-- Does a quoted health-route literal start here: a quote, the route
text, a quote. -/
def healthLitAt : List Char → Bool
  | [] => false
  | q :: rest =>
    quoteChars.contains q && "/health".data.isPrefixOf rest &&
      (match rest.drop 7 with
       | q2 :: _ => quoteChars.contains q2
       | [] => false)

def containsHealthLit : List Char → Bool
  | [] => false
  | c :: rest => healthLitAt (c :: rest) || containsHealthLit rest

/-- The common whitespace characters matched by the regex whitespace
class: space, tab, line feed, carriage return, form feed, vertical
tab. -/
def isSpaceJS (c : Char) : Bool :=
  c = Char.ofNat 32 || c = Char.ofNat 9 || c = Char.ofNat 10 ||
  c = Char.ofNat 13 || c = Char.ofNat 12 || c = Char.ofNat 11

/-- Does a get route registration of the health route start here: the
word get, optional whitespace, an opening parenthesis, optional
whitespace, a quote, the route text. -/
def getHealthAt (l : List Char) : Bool :=
  if "get".data.isPrefixOf l then
    match (l.drop 3).dropWhile isSpaceJS with
    | c :: l2 =>
      if c = '(' then
        match l2.dropWhile isSpaceJS with
        | q :: l3 => quoteChars.contains q && "/health".data.isPrefixOf l3
        | [] => false
      else false
    | [] => false
  else false

def containsGetHealth : List Char → Bool
  | [] => false
  | c :: rest => getHealthAt (c :: rest) || containsGetHealth rest

/-- The two health-route regular expressions of the source, as one
content test. -/
def hasHealthRoute (content : String) : Bool :=
  containsHealthLit content.data || containsGetHealth content.data

def SERVER_FILES : List String := ["server.js", "index.js", "src/server.js", "src/index.js"]

structure Validation where
  ok : Bool
  errors : List String
  warnings : List String
deriving DecidableEq

/-- The body of validateWorkspace for an already-normalized type:
required files, forbidden files, the size walk, and the node health
check, aggregated in that order. -/
def validateCore (fs : FS) (normalizedType : String) : Validation :=
  let reqErrors := (REQUIRED_FILES normalizedType).filterMap fun r =>
    match r with
    | .single p =>
      if existsFS fs (resolveInWorkspace p) then none
      else some ("Missing required file: " ++ p)
    | .oneOf ps =>
      if ps.any (fun p => existsFS fs (resolveInWorkspace p)) then none
      else some ("Missing required file: one of [" ++ joinComma ps ++ "]")
  let forbErrors := (FORBIDDEN_FILES normalizedType).filterMap fun f =>
    if existsFS fs (resolveInWorkspace f) then
      some ("Forbidden file for " ++ normalizedType ++ ": " ++ f)
    else none
  let sizes := sizeMsgs fs.files
  let healthErrors :=
    if normalizedType = "node" then
      let hasHealth := SERVER_FILES.any fun sf =>
        match lookupA fs.files (resolveInWorkspace sf) with
        | some c => hasHealthRoute c
        | none => false
      if hasHealth then [] else ["Node API must have GET /health endpoint"]
    else []
  let errors := reqErrors ++ forbErrors ++ sizes.1 ++ healthErrors
  { ok := errors.isEmpty, errors := errors, warnings := sizes.2 }

/-- validateWorkspace: normalize the project type, then run the checks. -/
def validateWorkspace (fs : FS) (projectType : Option String) : Validation :=
  validateCore fs (normalizeType projectType)

/-! ## Run outcome (generate, lines 759-809) -/

/-- The terminal report of generate. -/
inductive RunResult where
  | circuitBreaker (info : CBInfo)
  | validationFailed (errors : List String)
  | completed (turns : Nat) (tokens : Nat)
deriving DecidableEq

/-- generate over the oracle replies of a run: run the loop, then the
validator; a tripped breaker dominates the report, a failed validation
comes next, otherwise the run completed. -/
def generate (replies : List Reply) (projectType : Option String) : RunResult × FS :=
  let out := runLoop initDState replies
  let validation := validateWorkspace out.1.fs projectType
  match out.2 with
  | some info => (.circuitBreaker info, out.1.fs)
  | none =>
    if validation.ok then (.completed out.1.turnCount (out.1.totalInput + out.1.totalOutput), out.1.fs)
    else (.validationFailed validation.errors, out.1.fs)

/-! ## Helper lemmas -/

theorem lookupA_setAssoc_self (l : List (String × String)) (k v : String) :
    lookupA (setAssoc l k v) k = some v := by
  induction l with
  | nil => simp [setAssoc, lookupA]
  | cons hd t ih =>
    obtain ⟨k', v'⟩ := hd
    by_cases hk : k' = k
    · subst hk; simp [setAssoc, lookupA]
    · simp [setAssoc, lookupA, hk, ih]

theorem getT_setT_ne (t : Tracker) (k k' : String) (n : Nat) (h : k' ≠ k) :
    getT (setT t k n) k' = getT t k' := by
  induction t with
  | nil => simp [setT, getT, Ne.symm h]
  | cons hd rest ih =>
    obtain ⟨k0, n0⟩ := hd
    by_cases hk : k0 = k
    · subst hk
      simp [setT, getT, Ne.symm h]
    · simp [setT, getT, hk, ih]

theorem getT_deleteT_ne (t : Tracker) (k k' : String) (h : k' ≠ k) :
    getT (deleteT t k) k' = getT t k' := by
  induction t with
  | nil => simp [deleteT]
  | cons hd rest ih =>
    obtain ⟨k0, n0⟩ := hd
    by_cases hk : k0 = k
    · subst hk
      simp [deleteT, getT, Ne.symm h, ih]
    · simp [deleteT, getT, hk, ih]

/-! ## C10 -/

/-- C10: a write_file or append_file call whose content argument is
missing, null, or not a string fails with the INVALID_WRITE_CONTENT
error code before any path validation or filesystem mutation: for every
path argument, valid or invalid, the result carries that code and the
workspace record is returned unchanged. -/
theorem c10_invalid_content (fs : FS) (pathArg : Option String) (contentArg : JSValue)
    (h : contentArg = .undefined ∨ contentArg = .null ∨ ∀ s, contentArg ≠ .str s) :
    ((handleWriteFile fs pathArg contentArg).1.success = false ∧
     (handleWriteFile fs pathArg contentArg).1.error_code = some "INVALID_WRITE_CONTENT" ∧
     (handleWriteFile fs pathArg contentArg).2 = fs) ∧
    ((handleAppendFile fs pathArg contentArg).1.success = false ∧
     (handleAppendFile fs pathArg contentArg).1.error_code = some "INVALID_WRITE_CONTENT" ∧
     (handleAppendFile fs pathArg contentArg).2 = fs) := by
  cases contentArg with
  | undefined => exact ⟨⟨rfl, rfl, rfl⟩, ⟨rfl, rfl, rfl⟩⟩
  | null => exact ⟨⟨rfl, rfl, rfl⟩, ⟨rfl, rfl, rfl⟩⟩
  | str s =>
    rcases h with h | h | h
    · exact absurd h (by simp)
    · exact absurd h (by simp)
    · exact absurd rfl (h s)
  | num n => exact ⟨⟨rfl, rfl, rfl⟩, ⟨rfl, rfl, rfl⟩⟩
  | boolean b => exact ⟨⟨rfl, rfl, rfl⟩, ⟨rfl, rfl, rfl⟩⟩

/-- C10 witness: a null content argument combined with a traversal path
still yields INVALID_WRITE_CONTENT (so the content check precedes path
validation) and leaves the fresh workspace unchanged. -/
theorem c10_invalid_content_witness :
    ((handleWriteFile initFS (some "../escape") JSValue.null).1.success = false ∧
     (handleWriteFile initFS (some "../escape") JSValue.null).1.error_code = some "INVALID_WRITE_CONTENT" ∧
     (handleWriteFile initFS (some "../escape") JSValue.null).2 = initFS) ∧
    ((handleAppendFile initFS (some "../escape") JSValue.null).1.success = false ∧
     (handleAppendFile initFS (some "../escape") JSValue.null).1.error_code = some "INVALID_WRITE_CONTENT" ∧
     (handleAppendFile initFS (some "../escape") JSValue.null).2 = initFS) :=
  c10_invalid_content initFS (some "../escape") JSValue.null (Or.inr (Or.inl rfl))

/-! ## C9 -/

/-- C9: project-type inference is a total function into the closed set
of four type keys, checks the keyword groups in the fixed priority order
framework mention, backend mention, UI-framework mention, and returns
the static type when no group matches. -/
theorem c9_inference (p : String) :
    (inferProjectType p = "nextjs" ∨ inferProjectType p = "node" ∨
     inferProjectType p = "vite" ∨ inferProjectType p = "static") ∧
    (mentionsFramework (lowerStr p) = true → inferProjectType p = "nextjs") ∧
    (mentionsFramework (lowerStr p) = false → mentionsBackend (lowerStr p) = true →
      inferProjectType p = "node") ∧
    (mentionsFramework (lowerStr p) = false → mentionsBackend (lowerStr p) = false →
      mentionsUI (lowerStr p) = true → inferProjectType p = "vite") ∧
    (mentionsFramework (lowerStr p) = false → mentionsBackend (lowerStr p) = false →
      mentionsUI (lowerStr p) = false → inferProjectType p = "static") := by
  unfold inferProjectType
  by_cases h1 : mentionsFramework (lowerStr p) = true <;>
  by_cases h2 : mentionsBackend (lowerStr p) = true <;>
  by_cases h3 : mentionsUI (lowerStr p) = true <;>
  by_cases h4 : mentionsStatic (lowerStr p) = true <;>
  simp_all

/-- C9 witness: a request mentioning only a backend keyword is inferred
as the node type through the second priority rule. -/
theorem c9_inference_witness : inferProjectType "Build me a backend API" = "node" :=
  (c9_inference "Build me a backend API").2.2.1 (by decide) (by decide)

/-! ## C2 -/

/-- A content string one byte above the 32 KiB single-file cap. -/
def bigContent : String := ⟨List.replicate (32 * 1024 + 1) 'a'⟩

theorem bigContent_length : bigContent.length = 32 * 1024 + 1 := by
  unfold bigContent
  rw [String.length_mk, List.length_replicate]

/-- C2 counterexample: write_file performs no size check, so a content
one byte above the 32 KiB cap is written successfully instead of failing
with an oversize-write error, and the file lands in the workspace. -/
theorem c2_oversize_counterexample :
    32 * 1024 < bigContent.length ∧
    (handleWriteFile initFS (some "big.txt") (JSValue.str bigContent)).1.success = true ∧
    lookupA (handleWriteFile initFS (some "big.txt") (JSValue.str bigContent)).2.files
      "/workspace/big.txt" = some bigContent := by
  refine ⟨?_, rfl, ?_⟩
  · rw [bigContent_length]; omega
  · rfl

/-- C2 amended: write_file enforces no single-file cap: for every
validated path that is not an existing directory and every string
content, also one whose length exceeds 32 KiB, the call succeeds and the
full content is stored at the resolved path. -/
theorem c2_write_no_size_cap (fs : FS) (p abs s : String)
    (hv : validatePath p = .ok abs) (hd : existsDir fs abs = false)
    (hbig : 32 * 1024 < s.length) :
    (handleWriteFile fs (some p) (JSValue.str s)).1.success = true ∧
    lookupA (handleWriteFile fs (some p) (JSValue.str s)).2.files abs = some s := by
  simp [handleWriteFile, validatePathOpt, hv, hd, lookupA_setAssoc_self]

/-- C2 witness: the oversize write of the counterexample input through
the amended theorem. -/
theorem c2_write_no_size_cap_witness :
    (handleWriteFile initFS (some "big.txt") (JSValue.str bigContent)).1.success = true ∧
    lookupA (handleWriteFile initFS (some "big.txt") (JSValue.str bigContent)).2.files
      "/workspace/big.txt" = some bigContent :=
  c2_write_no_size_cap initFS "big.txt" "/workspace/big.txt" bigContent
    rfl (by decide) (by rw [bigContent_length]; omega)

/-! ## C6 -/

/-- A chunk one byte above the 8 KiB chunk cap. -/
def bigChunk : String := ⟨List.replicate (8 * 1024 + 1) 'c'⟩

theorem bigChunk_length : bigChunk.length = 8 * 1024 + 1 := by
  unfold bigChunk
  rw [String.length_mk, List.length_replicate]

/-- A base file content that brings a later append over the 32 KiB hard
cap. -/
def baseContent : String := ⟨List.replicate 30000 'b'⟩

theorem baseContent_length : baseContent.length = 30000 := by
  unfold baseContent
  rw [String.length_mk, List.length_replicate]

/-- The workspace holding the base file. -/
def baseFS : FS :=
  { files := [("/workspace/a.txt", baseContent)], dirs := [WORKSPACE] }

/-- C6 counterexample: append_file performs neither the 8 KiB chunk
check nor the 32 KiB total check: a chunk one byte above the chunk cap
succeeds, and an append that brings the file to 38193 bytes (above the
hard cap) also succeeds instead of failing. -/
theorem c6_oversize_append_counterexample :
    8 * 1024 < bigChunk.length ∧
    (handleAppendFile initFS (some "a.txt") (JSValue.str bigChunk)).1.success = true ∧
    (handleAppendFile baseFS (some "a.txt") (JSValue.str bigChunk)).1.success = true ∧
    lookupA (handleAppendFile baseFS (some "a.txt") (JSValue.str bigChunk)).2.files
      "/workspace/a.txt" = some (baseContent ++ bigChunk) ∧
    32 * 1024 < (baseContent ++ bigChunk).length := by
  refine ⟨?_, rfl, rfl, ?_, ?_⟩
  · rw [bigChunk_length]; omega
  · rfl
  · rw [String.length_append, baseContent_length, bigChunk_length]; omega

/-- C6 amended: append_file enforces no chunk cap and no total cap: for
every validated path that is not an existing directory and every string
chunk of any size, the call succeeds and the stored content is the
previous content (empty when the file was absent) followed by the chunk,
so all previously written bytes are preserved. -/
theorem c6_append_no_size_cap (fs : FS) (p abs s : String)
    (hv : validatePath p = .ok abs) (hd : existsDir fs abs = false) :
    (handleAppendFile fs (some p) (JSValue.str s)).1.success = true ∧
    lookupA (handleAppendFile fs (some p) (JSValue.str s)).2.files abs =
      some ((lookupA fs.files abs).getD "" ++ s) := by
  simp [handleAppendFile, validatePathOpt, hv, hd, lookupA_setAssoc_self]

/-- C6 witness: the over-cap append of the counterexample through the
amended theorem. -/
theorem c6_append_no_size_cap_witness :
    (handleAppendFile baseFS (some "a.txt") (JSValue.str bigChunk)).1.success = true ∧
    lookupA (handleAppendFile baseFS (some "a.txt") (JSValue.str bigChunk)).2.files
      "/workspace/a.txt" = some ((lookupA baseFS.files "/workspace/a.txt").getD "" ++ bigChunk) :=
  c6_append_no_size_cap baseFS "a.txt" "/workspace/a.txt" bigChunk rfl (by decide)

/-! ## C4 -/

/-- C4 counterexample: the path a/.. contains a parent-directory
segment, yet validatePath accepts it (the traversal test only matches a
dotdot followed by a separator, and the resolved result is the workspace
root itself), and a Gateway operation on it succeeds instead of failing
with a path-escape error: listing a/.. lists the workspace root. -/
theorem c4_parent_segment_counterexample :
    (segsOf "a/..").contains ['.', '.'] = true ∧
    validatePath "a/.." = Except.ok "/workspace" ∧
    (handleListDirectory initFS (some "a/..")).1.success = true := by
  refine ⟨by decide, rfl, rfl⟩

/-- C4 amended: every path whose cleaned form contains a dotdot segment
directly followed by a separator (forward or backward), and every path
whose resolution leaves the workspace root, is rejected by validatePath,
and then all five Gateway operations fail and return the workspace
unchanged.  (A trailing dotdot segment that resolves back inside the
root, such as a/.., is accepted.) -/
theorem c4_path_escape (p : String)
    (h : containsSub (stripLeadingSlashes p) "../" = true ∨
         containsSub (stripLeadingSlashes p) "..\\" = true ∨
         startsWithStr (resolveInWorkspace (stripLeadingSlashes p)) WORKSPACE = false) :
    (∃ e, validatePath p = Except.error e) ∧
    ∀ fs s,
      ((handleWriteFile fs (some p) (JSValue.str s)).1.success = false ∧
       (handleWriteFile fs (some p) (JSValue.str s)).2 = fs) ∧
      ((handleAppendFile fs (some p) (JSValue.str s)).1.success = false ∧
       (handleAppendFile fs (some p) (JSValue.str s)).2 = fs) ∧
      ((handleReadFile fs (some p)).1.success = false ∧
       (handleReadFile fs (some p)).2 = fs) ∧
      ((handleListDirectory fs (some p)).1.success = false ∧
       (handleListDirectory fs (some p)).2 = fs) ∧
      ((handleCreateDirectory fs (some p)).1.success = false ∧
       (handleCreateDirectory fs (some p)).2 = fs) := by
  have herr : ∃ e, validatePath p = Except.error e := by
    by_cases hc : (containsSub (stripLeadingSlashes p) "../" ||
        containsSub (stripLeadingSlashes p) "..\\") = true
    · exact ⟨.traversal p, by unfold validatePath; simp [hc]⟩
    · have hc' : containsSub (stripLeadingSlashes p) "../" = false ∧
          containsSub (stripLeadingSlashes p) "..\\" = false := by
        rcases Bool.or_eq_false_iff.mp (Bool.not_eq_true _ |>.mp hc) with ⟨h1, h2⟩
        exact ⟨h1, h2⟩
      have hs : startsWithStr (resolveInWorkspace (stripLeadingSlashes p)) WORKSPACE = false := by
        rcases h with h | h | h
        · rw [hc'.1] at h; exact absurd h (by simp)
        · rw [hc'.2] at h; exact absurd h (by simp)
        · exact h
      exact ⟨.outside p, by unfold validatePath; simp [hc'.1, hc'.2, hs]⟩
  obtain ⟨e, he⟩ := herr
  refine ⟨⟨e, he⟩, fun fs s => ?_⟩
  refine ⟨⟨?_, ?_⟩, ⟨?_, ?_⟩, ⟨?_, ?_⟩, ⟨?_, ?_⟩, ⟨?_, ?_⟩⟩ <;>
    simp [handleWriteFile, handleAppendFile, handleReadFile, handleListDirectory,
      handleCreateDirectory, validatePathOpt, he]

/-- C4 witness: a traversal path is refused by every operation with the
workspace unchanged. -/
theorem c4_path_escape_witness :
    ((handleWriteFile initFS (some "../x") (JSValue.str "x")).1.success = false ∧
     (handleWriteFile initFS (some "../x") (JSValue.str "x")).2 = initFS) ∧
    ((handleAppendFile initFS (some "../x") (JSValue.str "x")).1.success = false ∧
     (handleAppendFile initFS (some "../x") (JSValue.str "x")).2 = initFS) ∧
    ((handleReadFile initFS (some "../x")).1.success = false ∧
     (handleReadFile initFS (some "../x")).2 = initFS) ∧
    ((handleListDirectory initFS (some "../x")).1.success = false ∧
     (handleListDirectory initFS (some "../x")).2 = initFS) ∧
    ((handleCreateDirectory initFS (some "../x")).1.success = false ∧
     (handleCreateDirectory initFS (some "../x")).2 = initFS) :=
  (c4_path_escape "../x" (Or.inl (by decide))).2 initFS "x"

/-! ## C8 -/

theorem contract_lookup_none_keys (k : String)
    (h : lookupA CONTRACT_MAP k = none) :
    k ≠ "nextjs" ∧ k ≠ "next" ∧ k ≠ "node" ∧ k ≠ "api" ∧ k ≠ "static" ∧
    k ≠ "html" ∧ k ≠ "vite" ∧ k ≠ "react-spa" ∧ k ≠ "react" := by
  refine ⟨?_, ?_, ?_, ?_, ?_, ?_, ?_, ?_, ?_⟩ <;>
    (intro hk; subst hk; exact absurd h (by decide))

/-- C8 corrected: for a project type outside the contract table, the
contract lookup is indeed non-fatal (it returns none), but the
workspace validator does not skip the file rules: it normalizes the
unknown type to static and enforces the static required and forbidden
file rules. -/
theorem c8_unknown_type (t : String) (hne : t ≠ "")
    (h : lookupA CONTRACT_MAP (lowerStr t) = none) :
    getContractPath (some t) = none ∧
    normalizeType (some t) = "static" ∧
    ∀ fs, validateWorkspace fs (some t) = validateWorkspace fs (some "static") := by
  obtain ⟨h1, h2, h3, h4, h5, h6, h7, h8, h9⟩ := contract_lookup_none_keys _ h
  have hnorm : normalizeType (some t) = "static" := by
    unfold normalizeType
    simp [hne, h1, h2, h3, h4, h7, h8, h9]
  refine ⟨?_, hnorm, fun fs => ?_⟩
  · unfold getContractPath
    simp [hne, h]
  · unfold validateWorkspace
    rw [hnorm]
    rfl

/-- C8 counterexample: the project type elm is not a contract key, so no
contract is loaded, yet the validator enforces the static rules against
it: the empty workspace is missing index.html, and a workspace with a
package.json gets the forbidden-file error. -/
theorem c8_unknown_type_counterexample :
    getContractPath (some "elm") = none ∧
    (validateWorkspace initFS (some "elm")).ok = false ∧
    (validateWorkspace initFS (some "elm")).errors = ["Missing required file: index.html"] ∧
    (validateWorkspace
      { files := [("/workspace/index.html", "a"), ("/workspace/package.json", "b")],
        dirs := ["/workspace"] } (some "elm")).errors =
      ["Forbidden file for static: package.json"] := by
  refine ⟨rfl, rfl, rfl, rfl⟩

/-- C8 witness: the amended statement at the elm type. -/
theorem c8_unknown_type_witness :
    getContractPath (some "elm") = none ∧
    normalizeType (some "elm") = "static" ∧
    validateWorkspace initFS (some "elm") = validateWorkspace initFS (some "static") :=
  ⟨(c8_unknown_type "elm" (by decide) (by decide)).1,
   (c8_unknown_type "elm" (by decide) (by decide)).2.1,
   (c8_unknown_type "elm" (by decide) (by decide)).2.2 initFS⟩

/-! ## Shared concrete run artifacts -/

def writeCall : ToolCall :=
  { id := "toolu_01", name := "write_file",
    input := { path := some "index.html", content := .str "hello" } }

def writeReply : Reply := { content := [.toolUse writeCall], stop_reason := "tool_use" }

/-! ## C1 -/

/-- C1 counterexample: a first reply with a tool-call request and no
file-plan block does not terminate the run with a protocol violation:
the write is executed (the file appears in the workspace) and the run
completes normally.  No ProtocolViolation outcome exists in the
embedded generate. -/
theorem c1_premanifest_write_counterexample :
    extractManifest writeReply.content = none ∧
    (toolUsesOf writeReply.content).length = 1 ∧
    (generate [writeReply] (some "static")).1 = RunResult.completed 1 0 ∧
    lookupA (generate [writeReply] (some "static")).2.files "/workspace/index.html" =
      some "hello" := by
  refine ⟨rfl, rfl, by decide, by decide⟩

/-- C1 amended: a reply that carries tool-call requests and no manifest
block, before or after any approval, is dispatched normally (every
requested call is executed through the breaker loop); the run does not
terminate with a protocol violation.  (A reply whose stop reason is
end_turn leaves the loop without executing its calls.) -/
theorem c1_premanifest_dispatch (s : DState) (r : Reply)
    (hm : extractManifest r.content = none)
    (ht : toolUsesOf r.content ≠ [])
    (hs : r.stop_reason ≠ "end_turn") :
    stepTurn s r = dispatchPhase (nudgeBump (tokenBump s r) r) (toolUsesOf r.content) := by
  cases hlist : toolUsesOf r.content with
  | nil => exact absurd hlist ht
  | cons c rest =>
    unfold stepTurn
    simp [hm, hs, hlist]

/-- C1 witness: the dispatch equation at the concrete pre-manifest
write reply. -/
theorem c1_premanifest_dispatch_witness :
    stepTurn initDState writeReply =
      dispatchPhase (nudgeBump (tokenBump initDState writeReply) writeReply)
        (toolUsesOf writeReply.content) :=
  c1_premanifest_dispatch initDState writeReply rfl (by decide) (by decide)

/-! ## C3 -/

/-- A manifest whose single entry estimates a thousand terabytes. -/
def hugeManifest : Json :=
  .obj [("files", .arr [.obj [("path", .str "index.html"),
    ("estimated_bytes", .num 1000000000000000)]])]

def hugeManifestReply : Reply :=
  { content := [.text (some hugeManifest)], stop_reason := "end_turn" }

/-- C3 counterexample: a manifest whose estimated byte total exceeds any
project budget is accepted (the driver injects the acknowledgment and
continues), the announced file is then written, and the run completes:
no ManifestInvalid rejection and not zero files written. -/
theorem c3_budget_counterexample :
    sumEstimatedBytes hugeManifest = 1000000000000000 ∧
    (32 * 1024 : Int) < sumEstimatedBytes hugeManifest ∧
    (generate [hugeManifestReply, writeReply] (some "static")).1 = RunResult.completed 2 0 ∧
    lookupA (generate [hugeManifestReply, writeReply] (some "static")).2.files
      "/workspace/index.html" = some "hello" := by
  refine ⟨rfl, by decide, by decide, by decide⟩

/-- C3 amended: manifest validation consists solely of the parse-time
files-array check: every reply whose parsed fenced block has a files
array and that carries no tool calls is accepted with the
acknowledgment, whatever its estimated byte total, and the run then
proceeds to write files. -/
theorem c3_manifest_accepted_unconditionally (s : DState) (r : Reply) (j : Json)
    (hm : extractManifest r.content = some j)
    (ht : toolUsesOf r.content = []) :
    stepTurn s r =
      .cont { tokenBump s r with ackCount := (tokenBump s r).ackCount + 1 } := by
  unfold stepTurn
  simp [hm, ht]

/-- C3 witness: the over-budget manifest reply is accepted. -/
theorem c3_manifest_accepted_witness :
    stepTurn initDState hugeManifestReply =
      .cont { tokenBump initDState hugeManifestReply with
        ackCount := (tokenBump initDState hugeManifestReply).ackCount + 1 } :=
  c3_manifest_accepted_unconditionally initDState hugeManifestReply hugeManifest rfl rfl

/-! ## C7 -/

/-- A well-formed manifest reply with no tool calls. -/
def manifestJson : Json :=
  .obj [("files", .arr [.obj [("path", .str "index.html"),
    ("purpose", .str "Homepage"), ("estimated_bytes", .num 500)]])]

def manifestReply : Reply :=
  { content := [.text (some manifestJson)], stop_reason := "end_turn" }

/-- C7 counterexample: the manifest check is not disarmed after an
acceptance: two successive manifest replies each trigger the
acknowledgment injection, so the acknowledgment turn is injected twice
in one run. -/
theorem c7_gate_rearmed_counterexample :
    (extractManifest manifestReply.content).isSome = true ∧
    (runLoop initDState [manifestReply, manifestReply]).1.ackCount = 2 := by
  exact ⟨rfl, rfl⟩

/-- C7 amended: the manifest check runs on every turn of the loop:
every reply that carries a parseable file-plan block and no tool calls
triggers the acknowledgment injection, also when a previous manifest
was already accepted in the same run. -/
theorem c7_gate_every_turn (s : DState) (r1 r2 : Reply)
    (h1 : (extractManifest r1.content).isSome = true) (h1' : toolUsesOf r1.content = [])
    (h2 : (extractManifest r2.content).isSome = true) (h2' : toolUsesOf r2.content = [])
    (hturn : s.turnCount + 1 < MAX_TURNS) :
    (runLoop s [r1, r2]).1.ackCount = s.ackCount + 2 := by
  have hlt1 : ¬ MAX_TURNS ≤ s.turnCount := by omega
  have hlt2 : ¬ MAX_TURNS ≤ s.turnCount + 1 := by omega
  simp [runLoop, stepTurn, tokenBump, h1, h1', h2, h2', hlt1, hlt2]

/-- C7 witness: the re-arming at a state that already accepted five
manifests. -/
theorem c7_gate_every_turn_witness :
    (runLoop { initDState with ackCount := 5 } [manifestReply, manifestReply]).1.ackCount =
      ({ initDState with ackCount := 5 } : DState).ackCount + 2 :=
  c7_gate_every_turn { initDState with ackCount := 5 } manifestReply manifestReply
    rfl rfl rfl rfl (by decide)

/-! ## C5 -/

theorem processCalls_cons (tracker : Tracker) (fs : FS) (c : ToolCall) (rest : List ToolCall) :
    processCalls tracker fs (c :: rest) =
      (let res := executeTool c.name c.input fs
       let key := trackKeyC c
       if res.1.success = false then
         let failures := getT tracker key + 1
         let tracker' := setT tracker key failures
         if MAX_REPEATED_FAILURES ≤ failures then
           ([], tracker', res.2, some (mkCBInfo c res.1 failures))
         else
           let out := processCalls tracker' res.2 rest
           (res.1 :: out.1, out.2)
       else
         let tracker' := if pathTruthy c.input.path then deleteT tracker key else tracker
         let out := processCalls tracker' res.2 rest
         (res.1 :: out.1, out.2)) := rfl

/-- C5: the circuit breaker.  First conjunct: a call that fails while
its key already carries two recorded consecutive failures (so this is
the third consecutive failure of that key) trips the breaker: the
batch stops, the remaining calls are not dispatched, and the breaker
diagnostic carries the tool, path, last error and the failure count of
three.  Second conjunct: a loop that left with a tripped breaker makes
the whole run end with the CircuitBroken report.  Third conjunct: a
successful call with a truthy path deletes the failure counter of its
key before the batch continues.  Fourth conjunct: processing a call
leaves the counter of every other key unchanged, so counters of
distinct keys are independent. -/
theorem c5_circuit_breaker :
    (∀ (tracker : Tracker) (fs : FS) (c : ToolCall) (rest : List ToolCall),
      (executeTool c.name c.input fs).1.success = false →
      2 ≤ getT tracker (trackKeyC c) →
      processCalls tracker fs (c :: rest) =
        ([], setT tracker (trackKeyC c) (getT tracker (trackKeyC c) + 1),
         (executeTool c.name c.input fs).2,
         some (mkCBInfo c (executeTool c.name c.input fs).1
           (getT tracker (trackKeyC c) + 1)))) ∧
    (∀ (replies : List Reply) (pt : Option String) (s' : DState) (info : CBInfo),
      runLoop initDState replies = (s', some info) →
      (generate replies pt).1 = RunResult.circuitBreaker info) ∧
    (∀ (tracker : Tracker) (fs : FS) (c : ToolCall) (rest : List ToolCall),
      (executeTool c.name c.input fs).1.success = true →
      pathTruthy c.input.path = true →
      processCalls tracker fs (c :: rest) =
        ((executeTool c.name c.input fs).1 ::
            (processCalls (deleteT tracker (trackKeyC c))
              (executeTool c.name c.input fs).2 rest).1,
         (processCalls (deleteT tracker (trackKeyC c))
           (executeTool c.name c.input fs).2 rest).2)) ∧
    (∀ (tracker : Tracker) (fs : FS) (c : ToolCall) (k : String),
      k ≠ trackKeyC c →
      getT (processCalls tracker fs [c]).2.1 k = getT tracker k) := by
  refine ⟨?_, ?_, ?_, ?_⟩
  · intro tracker fs c rest h1 h2
    have hcond : MAX_REPEATED_FAILURES ≤ getT tracker (trackKeyC c) + 1 := by
      unfold MAX_REPEATED_FAILURES
      omega
    rw [processCalls_cons]
    simp [h1, hcond]
  · intro replies pt s' info h
    simp [generate, h]
  · intro tracker fs c rest h1 h2
    rw [processCalls_cons]
    simp [h1, h2]
  · intro tracker fs c k hk
    rw [processCalls_cons]
    by_cases h1 : (executeTool c.name c.input fs).1.success = false
    · simp only [h1]
      by_cases h2 : MAX_REPEATED_FAILURES ≤ getT tracker (trackKeyC c) + 1
      · simp [h2, getT_setT_ne tracker (trackKeyC c) k _ hk]
      · simp [h2, processCalls, getT_setT_ne tracker (trackKeyC c) k _ hk]
    · simp only [h1]
      by_cases hp : pathTruthy c.input.path = true
      · simp [h1, hp, processCalls, getT_deleteT_ne tracker (trackKeyC c) k hk]
      · simp [h1, hp, processCalls]

/-- A write call that always fails (null content). -/
def cFail : ToolCall :=
  { id := "toolu_f", name := "write_file",
    input := { path := some "a.txt", content := .null } }

/-- A write call that succeeds on a fresh workspace. -/
def cOk : ToolCall :=
  { id := "toolu_s", name := "write_file",
    input := { path := some "ok.txt", content := .str "ok" } }

/-- A reply whose three identical failing calls trip the breaker. -/
def tripleFailReply : Reply :=
  { content := [.toolUse cFail, .toolUse cFail, .toolUse cFail], stop_reason := "tool_use" }

/-- The tracker after two consecutive failures on the key of cFail. -/
def twoFailTracker : Tracker := [("write_file:a.txt", 2)]

/-- The driver state after the turn in which the breaker tripped on the
third consecutive failure of cFail. -/
def tripState : DState :=
  { fs := initFS, tracker := [("write_file:a.txt", 3)], turnCount := 1, ackCount := 0,
    nudgeCount := 0, totalInput := 0, totalOutput := 0 }

/-- The breaker diagnostic of that run. -/
def tripInfo : CBInfo :=
  mkCBInfo cFail (executeTool cFail.name cFail.input initFS).1 3

/-- C5 witness: all four conjuncts at concrete inputs — the third
failure on the tracked key trips and drops the pending call, the
tripped run reports CircuitBroken, a success deletes its counter, and
a foreign counter survives a processed call. -/
theorem c5_circuit_breaker_witness :
    (processCalls twoFailTracker initFS [cFail, cOk] =
      ([], setT twoFailTracker (trackKeyC cFail) (getT twoFailTracker (trackKeyC cFail) + 1),
       (executeTool cFail.name cFail.input initFS).2,
       some (mkCBInfo cFail (executeTool cFail.name cFail.input initFS).1
         (getT twoFailTracker (trackKeyC cFail) + 1)))) ∧
    ((generate [tripleFailReply] (some "static")).1 = RunResult.circuitBreaker tripInfo) ∧
    (processCalls [] initFS [cOk] =
      ((executeTool cOk.name cOk.input initFS).1 ::
          (processCalls (deleteT [] (trackKeyC cOk))
            (executeTool cOk.name cOk.input initFS).2 []).1,
       (processCalls (deleteT [] (trackKeyC cOk))
         (executeTool cOk.name cOk.input initFS).2 []).2)) ∧
    (getT (processCalls [("other", 1)] initFS [cOk]).2.1 "other" = getT [("other", 1)] "other") :=
  ⟨c5_circuit_breaker.1 twoFailTracker initFS cFail [cOk] (by decide) (by decide),
   c5_circuit_breaker.2.1 [tripleFailReply] (some "static") tripState tripInfo (by decide),
   c5_circuit_breaker.2.2.1 [] initFS cOk [] (by decide) (by decide),
   c5_circuit_breaker.2.2.2 [("other", 1)] initFS cOk "other" (by decide)⟩
